import Mathlib

/-!
Shallow embedding of the ArdusatSDK unified serial library
(src/utility/serial.cpp): a dual-transport serial facade (hardware
"Serial" as the primary endpoint, an owned SoftwareSerial as the
secondary endpoint) plus the XBee baud-rate negotiator and the
BlueSMiRF bluetooth bring-up sequence.

Side effects on the two endpoints (open/close/print/write/read/etc.)
and timing delays are modelled as explicit event traces; the attached
RF module is modelled as an oracle saying at which line rates it
responds to the escape sequence, together with the acknowledgment
bytes it makes readable once it has responded.
-/

/-- The two byte-stream endpoints of the facade: the ambient hardware
UART (the global `Serial` object, "primary") and the owned
SoftwareSerial instance ("secondary"). -/
inductive Ep
  | primary
  | secondary
deriving DecidableEq, Repr

/-- One observable action performed by the library code: endpoint
lifecycle calls, prints of strings and numbers, single-byte writes,
reads, peeks, byte-availability checks, flushes, busy-wait delays, and
creation/deletion of the owned SoftwareSerial object. -/
inductive Event
  | beginE (e : Ep) (baud : Nat)
  | endE (e : Ep)
  | printS (e : Ep) (s : String)
  | printlnS (e : Ep) (s : String)
  | printN (e : Ep) (n : Nat)
  | printlnN (e : Ep) (n : Nat)
  | writeB (e : Ep) (b : Nat)
  | readE (e : Ep)
  | peekE (e : Ep)
  | availE (e : Ep)
  | flushE (e : Ep)
  | delayE (ms : Nat)
  | newSoftSerial
  | deleteSoftSerial
deriving DecidableEq, Repr

/-- The serialMode enumeration of serial.h: hardware serial only,
software serial only, or both. -/
inductive serialMode
  | SERIAL_MODE_HARDWARE
  | SERIAL_MODE_SOFTWARE
  | SERIAL_MODE_HARDWARE_AND_SOFTWARE
deriving DecidableEq, Repr

/-- State of an ArdusatSerial facade object: its mode (field `_mode`
in the C++ source; Lean does not allow a leading underscore here) and
whether the owned SoftwareSerial object (`_soft_serial`) exists, i.e.
whether the pointer is non-NULL. -/
structure ArdusatSerial where
  mode : serialMode
  soft_serial : Bool
deriving DecidableEq, Repr

/-- The attached XBee RF module, as seen through the serial line:
`respondsAt r` says whether, after the endpoint is opened at rate `r`
and the escape sequence is printed, `available()` reports data;
`ack` is the sequence of values successive `read()` calls return once
the module has responded (the C++ sentinel -1 for "nothing to read"). -/
structure XbeeModule where
  respondsAt : Nat → Bool
  ack : List Int

/-- The fallback rate candidate list of `_enter_xbee_cmd_mode`
(`unsigned long rates[] = { 9600, 57600, 115200, 19200, 38400 }`). -/
def xbee_rates : List Nat := [9600, 57600, 115200, 19200, 38400]

/-- Trace of the initial probe of `_enter_xbee_cmd_mode`:
`serial->end(); delay(1200); serial->begin(speed); serial->print("+++");
delay(1200);` followed by the `serial->available()` check. -/
def initial_probe (speed : Nat) : List Event :=
  [Event.endE Ep.secondary, Event.delayE 1200, Event.beginE Ep.secondary speed,
   Event.printS Ep.secondary "+++", Event.delayE 1200, Event.availE Ep.secondary]

/-- Trace of one iteration of the fallback loop of
`_enter_xbee_cmd_mode`: `serial->end(); serial->begin(rates[i]);
serial->print("+++"); delay(1200);` followed by the
`serial->available()` check. -/
def probe_block (r : Nat) : List Event :=
  [Event.endE Ep.secondary, Event.beginE Ep.secondary r,
   Event.printS Ep.secondary "+++", Event.delayE 1200, Event.availE Ep.secondary]

/-- The fallback loop of `_enter_xbee_cmd_mode` over the remaining
candidate list: probes each rate in order, stopping at the first one
the module responds to (`speed = rates[i]; break`); returns the
responding rate, if any, and the emitted trace. Reaching the end of
the list is the `if (i == 4) return -1` case. -/
def try_rates (m : XbeeModule) : List Nat → Option Nat × List Event
  | [] => (none, [])
  | r :: rs =>
    if m.respondsAt r then (some r, probe_block r)
    else
      let rest := try_rates m rs
      (rest.1, probe_block r ++ rest.2)

/-- Trace of the acknowledgment-draining loop of
`_enter_xbee_cmd_mode`: up to 2 `serial->read()` calls, stopping after
the first one if it returned the -1 sentinel. -/
def drain_ack (ack : List Int) : List Event :=
  if ack.headD (-1) = -1 then [Event.readE Ep.secondary]
  else [Event.readE Ep.secondary, Event.readE Ep.secondary]

/-- Function `_enter_xbee_cmd_mode(serial, speed)`: probes at `speed`, falls
back over `xbee_rates` if that got no response, drains the ack and
returns 0 on success, returns -1 when no candidate responded. Returns
the return code, the speed the module was found to be operating at
(the local variable `speed` at function exit), and the event trace. -/
def enter_xbee_cmd_mode (m : XbeeModule) (speed : Nat) : Int × Nat × List Event :=
  if m.respondsAt speed then
    (0, speed, initial_probe speed ++ drain_ack m.ack)
  else
    match try_rates m xbee_rates with
    | (some r, tr) => (0, r, initial_probe speed ++ tr ++ drain_ack m.ack)
    | (none, tr) => (-1, speed, initial_probe speed ++ tr)

/-- The baud-rate-to-command-code switch of `set_xbee_baud_rate`; the
default case is 6, the code for 57600. -/
def xbee_rate_code (speed : Nat) : Nat :=
  match speed with
  | 1200 => 0
  | 2400 => 1
  | 4800 => 2
  | 9600 => 3
  | 19200 => 4
  | 38400 => 5
  | 57600 => 6
  | 115200 => 7
  | _ => 6

/-- Trace of the configuration block of `set_xbee_baud_rate` once
command mode was entered: print "ATBD " and the rate code, persist
with "ATWR", wait, leave command mode with "ATCN", wait, and print the
success confirmation on the hardware Serial endpoint. -/
def configure_seq (speed : Nat) : List Event :=
  [Event.printS Ep.secondary "ATBD ",
   Event.printlnN Ep.secondary (xbee_rate_code speed),
   Event.printlnS Ep.secondary "ATWR", Event.delayE 1200,
   Event.printlnS Ep.secondary "ATCN", Event.delayE 1200,
   Event.printS Ep.primary "Set XBEE baud rate to ",
   Event.printlnN Ep.primary speed]

/-- Function `set_xbee_baud_rate(serial, speed)`: runs `_enter_xbee_cmd_mode`
(which receives `speed` by value, so its internal reassignment of
`speed` is invisible here) and, if it returned 0, emits the
configuration sequence for the requested `speed`. -/
def set_xbee_baud_rate (m : XbeeModule) (speed : Nat) : List Event :=
  let r := enter_xbee_cmd_mode m speed
  if r.1 = 0 then r.2.2 ++ configure_seq speed else r.2.2

/-- Constructor `ArdusatSerial(serialMode mode)`: with no pin
arguments a software serial connection cannot be initialized, so the
code unconditionally sets `_mode = SERIAL_MODE_HARDWARE`, creating no
SoftwareSerial object and emitting nothing: in particular it never
prints `no_software_params_err_msg`, although its own doc comment says
it "Prints error message and halts execution if software serial with
no options is requested". Returns the constructed state and the trace.
The NULL initial value of the `_soft_serial` member is modelled from
the spec: the class declaration (serial.h) is not in the sources, and
the spec states the facade owns zero or one secondary endpoint,
created only when the transport mode requires it. -/
def ctor_mode_only (_mode : serialMode) : ArdusatSerial × List Event :=
  ({ mode := serialMode.SERIAL_MODE_HARDWARE, soft_serial := false }, [])

/-- Constructor `ArdusatSerial(serialMode, rx, tx, inverse)`: allocates
the SoftwareSerial object exactly when the mode is software or both,
then stores the mode. Pin numbers and logic inversion only configure
the created object and do not influence the facade state. -/
def ctor_full (mode : serialMode) (_rx _tx : Nat) (_inverse : Bool) :
    ArdusatSerial × List Event :=
  if mode = serialMode.SERIAL_MODE_SOFTWARE ∨
     mode = serialMode.SERIAL_MODE_HARDWARE_AND_SOFTWARE then
    ({ mode := mode, soft_serial := true }, [Event.newSoftSerial])
  else
    ({ mode := mode, soft_serial := false }, [])

/-- Destructor `~ArdusatSerial()`: deletes the SoftwareSerial object
when the `_soft_serial` pointer is non-NULL. -/
def dtor (f : ArdusatSerial) : List Event :=
  if f.soft_serial then [Event.deleteSoftSerial] else []

/-- Method `ArdusatSerial::begin(baud, setXbeeSpeed)`: opens hardware Serial
at `baud` in hardware or both modes; in software or both modes,
optionally runs the XBee negotiator, then closes and reopens the
software endpoint at `baud`. -/
def fbegin (f : ArdusatSerial) (m : XbeeModule) (baud : Nat)
    (setXbeeSpeed : Bool) : List Event :=
  (if f.mode = serialMode.SERIAL_MODE_HARDWARE ∨
      f.mode = serialMode.SERIAL_MODE_HARDWARE_AND_SOFTWARE then
    [Event.beginE Ep.primary baud]
  else []) ++
  (if f.mode = serialMode.SERIAL_MODE_SOFTWARE ∨
      f.mode = serialMode.SERIAL_MODE_HARDWARE_AND_SOFTWARE then
    (if setXbeeSpeed then set_xbee_baud_rate m baud else []) ++
    [Event.endE Ep.secondary, Event.beginE Ep.secondary baud]
  else [])

/-- The `switch (baud)` of `ArdusatSerial::beginBluetooth`: the
command string for each whitelisted bluetooth baud rate; the default
case sets `valid_baud = false`, modelled as `none`. -/
def bt_baud_cmd (baud : Nat) : Option String :=
  match baud with
  | 1200 => some "U,1200,N"
  | 2400 => some "U,2400,N"
  | 4800 => some "U,4800,N"
  | 9600 => some "U,9600,N"
  | 19200 => some "U,192K,N"
  | 38400 => some "U,384K,N"
  | 57600 => some "U,576K,N"
  | _ => none

/-- The bluetooth baud-rate whitelist of the spec, the rates the
switch in `beginBluetooth` recognizes. -/
def bt_whitelist : List Nat := [1200, 2400, 4800, 9600, 19200, 38400, 57600]

/-- Method `ArdusatSerial::beginBluetooth(baud)`: on a whitelisted rate,
performs the BlueSMiRF bring-up (open at the shipping default 9600,
print the "$$$" escape, wait 100 ms, print the rate command — all
skipped when the target already is 9600) on hardware Serial in
hardware mode and on the software endpoint in software or both modes,
then opens the endpoint(s) at the target rate. On any other rate,
prints the offending value and the supported-rate list on hardware
Serial, opened at 9600. -/
def beginBluetooth (f : ArdusatSerial) (baud : Nat) : List Event :=
  match bt_baud_cmd baud with
  | some baud_cmd =>
    (if f.mode = serialMode.SERIAL_MODE_HARDWARE then
      (if baud ≠ 9600 then
        [Event.beginE Ep.primary 9600, Event.printS Ep.primary "$$$",
         Event.delayE 100, Event.printlnS Ep.primary baud_cmd]
      else []) ++
      [Event.beginE Ep.primary baud]
    else []) ++
    (if f.mode = serialMode.SERIAL_MODE_SOFTWARE ∨
        f.mode = serialMode.SERIAL_MODE_HARDWARE_AND_SOFTWARE then
      (if baud ≠ 9600 then
        [Event.endE Ep.secondary, Event.beginE Ep.secondary 9600,
         Event.printS Ep.secondary "$$$", Event.delayE 100,
         Event.printlnS Ep.secondary baud_cmd]
      else []) ++
      [Event.endE Ep.secondary, Event.beginE Ep.secondary baud]
    else []) ++
    (if f.mode = serialMode.SERIAL_MODE_HARDWARE_AND_SOFTWARE then
      [Event.beginE Ep.primary baud]
    else [])
  | none =>
    [Event.beginE Ep.primary 9600, Event.printN Ep.primary baud,
     Event.printlnS Ep.primary " isn't a supported bluetooth baud rate.",
     Event.printlnS Ep.primary "Supported baud rates are:",
     Event.printlnS Ep.primary "1200 2400 4800 9600 19200 38400 57600"]

/-- Method `ArdusatSerial::end()`: the `send_to_serial` macro forwards to
hardware Serial in hardware or both modes, and to the software
endpoint (guarded by `_soft_serial` being non-NULL) in software or
both modes. -/
def fend (f : ArdusatSerial) : List Event :=
  (if f.mode = serialMode.SERIAL_MODE_HARDWARE ∨
      f.mode = serialMode.SERIAL_MODE_HARDWARE_AND_SOFTWARE then
    [Event.endE Ep.primary]
  else []) ++
  (if f.soft_serial = true ∧
      (f.mode = serialMode.SERIAL_MODE_SOFTWARE ∨
       f.mode = serialMode.SERIAL_MODE_HARDWARE_AND_SOFTWARE) then
    [Event.endE Ep.secondary]
  else [])

/-- Method `ArdusatSerial::flush()`: forwarded through `send_to_serial` like
`end()`. -/
def fflush (f : ArdusatSerial) : List Event :=
  (if f.mode = serialMode.SERIAL_MODE_HARDWARE ∨
      f.mode = serialMode.SERIAL_MODE_HARDWARE_AND_SOFTWARE then
    [Event.flushE Ep.primary]
  else []) ++
  (if f.soft_serial = true ∧
      (f.mode = serialMode.SERIAL_MODE_SOFTWARE ∨
       f.mode = serialMode.SERIAL_MODE_HARDWARE_AND_SOFTWARE) then
    [Event.flushE Ep.secondary]
  else [])

/-- Method `ArdusatSerial::peek()`: the `return_serial_function` macro
returns the software endpoint result in software or both modes, and
the hardware Serial result otherwise. `o` gives the current peek
result of each endpoint. -/
def fpeek (f : ArdusatSerial) (o : Ep → Int) : Int × List Event :=
  if f.mode = serialMode.SERIAL_MODE_SOFTWARE ∨
     f.mode = serialMode.SERIAL_MODE_HARDWARE_AND_SOFTWARE then
    (o Ep.secondary, [Event.peekE Ep.secondary])
  else
    (o Ep.primary, [Event.peekE Ep.primary])

/-- Method `ArdusatSerial::read()`: routed through `return_serial_function`
like `peek()`. -/
def fread (f : ArdusatSerial) (o : Ep → Int) : Int × List Event :=
  if f.mode = serialMode.SERIAL_MODE_SOFTWARE ∨
     f.mode = serialMode.SERIAL_MODE_HARDWARE_AND_SOFTWARE then
    (o Ep.secondary, [Event.readE Ep.secondary])
  else
    (o Ep.primary, [Event.readE Ep.primary])

/-- Method `ArdusatSerial::available()`: routed through
`return_serial_function` like `peek()`. -/
def favailable (f : ArdusatSerial) (o : Ep → Int) : Int × List Event :=
  if f.mode = serialMode.SERIAL_MODE_SOFTWARE ∨
     f.mode = serialMode.SERIAL_MODE_HARDWARE_AND_SOFTWARE then
    (o Ep.secondary, [Event.availE Ep.secondary])
  else
    (o Ep.primary, [Event.availE Ep.primary])

/-- Method `ArdusatSerial::write(b)`: starting from `size_t ret = 1`, writes
the byte to the software endpoint (if it exists and the mode is
software or both) and to hardware Serial (in hardware or both modes),
each time bitwise-ANDing the write result of that endpoint into `ret`.
`wr e` is the number of bytes endpoint `e` reports written. -/
def fwrite (f : ArdusatSerial) (wr : Ep → Nat) (b : Nat) : Nat × List Event :=
  let ret : Nat := 1
  let p1 :=
    if f.soft_serial = true ∧
       (f.mode = serialMode.SERIAL_MODE_SOFTWARE ∨
        f.mode = serialMode.SERIAL_MODE_HARDWARE_AND_SOFTWARE) then
      (Nat.land ret (wr Ep.secondary), [Event.writeB Ep.secondary b])
    else (ret, ([] : List Event))
  let p2 :=
    if f.mode = serialMode.SERIAL_MODE_HARDWARE ∨
       f.mode = serialMode.SERIAL_MODE_HARDWARE_AND_SOFTWARE then
      (Nat.land p1.1 (wr Ep.primary), [Event.writeB Ep.primary b])
    else (p1.1, ([] : List Event))
  (p2.1, p1.2 ++ p2.2)

/-- The endpoint an event acts on, if any (delays and object lifecycle
events act on none). -/
def on_ep : Event → Option Ep
  | Event.beginE e _ => some e
  | Event.endE e => some e
  | Event.printS e _ => some e
  | Event.printlnS e _ => some e
  | Event.printN e _ => some e
  | Event.printlnN e _ => some e
  | Event.writeB e _ => some e
  | Event.readE e => some e
  | Event.peekE e => some e
  | Event.availE e => some e
  | Event.flushE e => some e
  | Event.delayE _ => none
  | Event.newSoftSerial => none
  | Event.deleteSoftSerial => none

/-- Whether an event is one of the three configure-sequence commands
of `set_xbee_baud_rate` sent to the module: the baud-set command
("ATBD " plus the printed rate code), the persist command ("ATWR") or
the close-command-mode command ("ATCN"). -/
def is_configure_write : Event → Bool
  | Event.printS Ep.secondary s => s = "ATBD "
  | Event.printlnN Ep.secondary _ => true
  | Event.printlnS Ep.secondary s => s = "ATWR" ∨ s = "ATCN"
  | _ => false

/-- The numbers printed with println on the secondary endpoint, in
order; in the negotiator the only such print is the rate-code argument
of the baud-set command. -/
def secondary_rate_codes (tr : List Event) : List Nat :=
  tr.filterMap fun e =>
    match e with
    | Event.printlnN Ep.secondary n => some n
    | _ => none

/-- Whether an event mentions the primary (hardware Serial) endpoint. -/
def on_primary (e : Event) : Bool :=
  on_ep e = some Ep.primary

/-- Whether an event creates or deletes the owned SoftwareSerial
object. -/
def is_lifecycle : Event → Bool
  | Event.newSoftSerial => true
  | Event.deleteSoftSerial => true
  | _ => false

/-- Whether the negotiator finds a speed the module responds at:
either the initial probe at the requested speed succeeds, or some
fallback candidate responds. -/
def negotiation_ok (m : XbeeModule) (speed : Nat) : Bool :=
  m.respondsAt speed || xbee_rates.any m.respondsAt

/-- The fallback loop is the first-responder search over the candidate
list: it returns the first candidate the module responds to, and its
trace is one probe block per candidate tried, in list order, up to and
including the first responding one. -/
theorem try_rates_spec (m : XbeeModule) (l : List Nat) :
    try_rates m l = (l.find? m.respondsAt,
      (l.takeWhile (fun r => !m.respondsAt r)).flatMap probe_block ++
      ((l.find? m.respondsAt).map probe_block).getD []) := by
  induction l with
  | nil => rfl
  | cons r rs ih =>
    by_cases h : m.respondsAt r
    · simp [try_rates, h, List.find?_cons_of_pos, List.takeWhile_cons]
    · simp only [try_rates, h, if_false, ih, List.find?_cons_of_neg _ h,
        List.takeWhile_cons, Bool.not_false, if_true, List.flatMap_cons,
        List.append_assoc, Bool.false_eq_true]

/-- When the module responds to no candidate in the list, the fallback
loop fails after probing every candidate once, in order. -/
theorem try_rates_none (m : XbeeModule) (l : List Nat)
    (h : ∀ r ∈ l, m.respondsAt r = false) :
    try_rates m l = (none, l.flatMap probe_block) := by
  induction l with
  | nil => rfl
  | cons r rs ih =>
    have hr : m.respondsAt r = false := h r (List.mem_cons_self r rs)
    have hrs : ∀ q ∈ rs, m.respondsAt q = false :=
      fun q hq => h q (List.mem_cons_of_mem r hq)
    simp [try_rates, hr, ih hrs]

/-- No probe or ack-drain event prints a number on the secondary
endpoint, so the probing phase contributes no rate codes. -/
theorem secondary_rate_codes_enter (m : XbeeModule) (speed : Nat) :
    secondary_rate_codes (enter_xbee_cmd_mode m speed).2.2 = [] := by
  have key : ∀ tr1 tr2 : List Event, secondary_rate_codes tr1 = [] →
      secondary_rate_codes tr2 = [] → secondary_rate_codes (tr1 ++ tr2) = [] := by
    intro tr1 tr2 h1 h2
    unfold secondary_rate_codes at *
    rw [List.filterMap_append, h1, h2]
    rfl
  have hini : secondary_rate_codes (initial_probe speed) = [] := rfl
  have hblk : ∀ r, secondary_rate_codes (probe_block r) = [] := fun _ => rfl
  have htr : ∀ l, secondary_rate_codes (try_rates m l).2 = [] := by
    intro l
    induction l with
    | nil => rfl
    | cons r rs ih =>
      show secondary_rate_codes
        (if m.respondsAt r then (some r, probe_block r)
         else ((try_rates m rs).1, probe_block r ++ (try_rates m rs).2)).2 = []
      by_cases h : m.respondsAt r
      · rw [if_pos h]
        exact hblk r
      · rw [if_neg h]
        exact key _ _ (hblk r) ih
  have hdr : secondary_rate_codes (drain_ack m.ack) = [] := by
    unfold drain_ack
    by_cases h : m.ack.headD (-1) = -1
    · rw [if_pos h]
      rfl
    · rw [if_neg h]
      rfl
  unfold enter_xbee_cmd_mode
  by_cases h : m.respondsAt speed
  · rw [if_pos h]
    exact key _ _ hini hdr
  · rw [if_neg h]
    rcases hfind : try_rates m xbee_rates with ⟨found, tr⟩
    have htr2 : secondary_rate_codes tr = [] := by
      have := htr xbee_rates
      rw [hfind] at this
      exact this
    cases found with
    | some r =>
      show secondary_rate_codes
        (initial_probe speed ++ tr ++ drain_ack m.ack) = []
      exact key _ _ (key _ _ hini htr2) hdr
    | none =>
      show secondary_rate_codes (initial_probe speed ++ tr) = []
      exact key _ _ hini htr2

/-- The negotiator returns 0 exactly when some probed speed responds,
and -1 otherwise. -/
theorem enter_ret_code (m : XbeeModule) (speed : Nat) :
    (enter_xbee_cmd_mode m speed).1 =
      (if negotiation_ok m speed then 0 else -1) := by
  unfold enter_xbee_cmd_mode negotiation_ok
  by_cases h : m.respondsAt speed
  · simp [h]
  · rcases hfind : try_rates m xbee_rates with ⟨found, tr⟩
    have hspec := try_rates_spec m xbee_rates
    rw [hfind] at hspec
    have hfound : found = xbee_rates.find? m.respondsAt :=
      congrArg Prod.fst hspec
    cases hf : found with
    | some r =>
      have : xbee_rates.any m.respondsAt = true := by
        rw [List.any_eq_true]
        have : xbee_rates.find? m.respondsAt = some r := by rw [← hfound, hf]
        exact ⟨r, List.mem_of_find?_eq_some this, List.find?_some this⟩
      simp [h, hfind, hf, this]
    | none =>
      have : xbee_rates.any m.respondsAt = false := by
        rw [Bool.eq_false_iff]
        intro hany
        rw [List.any_eq_true] at hany
        rcases hany with ⟨r, hr, hresp⟩
        have := List.find?_eq_none.mp (hf ▸ hfound.symm) r hr
        simp [hresp] at this
      simp [h, hfind, hf, this]

/-- When negotiation succeeds, the emitted trace is the probing trace
followed by the configuration sequence for the requested target
speed. -/
theorem set_xbee_trace_ok (m : XbeeModule) (speed : Nat)
    (h : negotiation_ok m speed = true) :
    set_xbee_baud_rate m speed =
      (enter_xbee_cmd_mode m speed).2.2 ++ configure_seq speed := by
  have hret : (enter_xbee_cmd_mode m speed).1 = 0 := by
    rw [enter_ret_code]
    simp [h]
  show (if (enter_xbee_cmd_mode m speed).1 = 0
        then (enter_xbee_cmd_mode m speed).2.2 ++ configure_seq speed
        else (enter_xbee_cmd_mode m speed).2.2) =
      (enter_xbee_cmd_mode m speed).2.2 ++ configure_seq speed
  rw [if_pos hret]

/-- When negotiation fails, the emitted trace is the probing trace
alone. -/
theorem set_xbee_trace_fail (m : XbeeModule) (speed : Nat)
    (h : negotiation_ok m speed = false) :
    set_xbee_baud_rate m speed = (enter_xbee_cmd_mode m speed).2.2 := by
  have hret : (enter_xbee_cmd_mode m speed).1 = -1 := by
    rw [enter_ret_code]
    simp [h]
  have hne : ¬ ((enter_xbee_cmd_mode m speed).1 = 0) := by
    rw [hret]
    decide
  show (if (enter_xbee_cmd_mode m speed).1 = 0
        then (enter_xbee_cmd_mode m speed).2.2 ++ configure_seq speed
        else (enter_xbee_cmd_mode m speed).2.2) =
      (enter_xbee_cmd_mode m speed).2.2
  rw [if_neg hne]

/-- C1: whenever baud negotiation succeeds (the module responded to
the escape sequence at the requested target speed or at some fallback
candidate), the rate code printed in the baud-set command written to
the module is exactly the fixed mapping applied to the requested
target speed — never the mapping applied to any speed whose code
differs from the target code, in particular never the code of a
discovered probing speed whose code differs. -/
theorem C1_baud_set_code_uses_target (m : XbeeModule) (speed : Nat)
    (h : negotiation_ok m speed = true) :
    secondary_rate_codes (set_xbee_baud_rate m speed) =
      [xbee_rate_code speed] ∧
    ∀ d : Nat, xbee_rate_code d ≠ xbee_rate_code speed →
      secondary_rate_codes (set_xbee_baud_rate m speed) ≠
        [xbee_rate_code d] := by
  have hmain : secondary_rate_codes (set_xbee_baud_rate m speed) =
      [xbee_rate_code speed] := by
    rw [set_xbee_trace_ok m speed h]
    unfold secondary_rate_codes
    rw [List.filterMap_append]
    have hpr := secondary_rate_codes_enter m speed
    unfold secondary_rate_codes at hpr
    rw [hpr]
    rfl
  refine ⟨hmain, ?_⟩
  intro d hd hcontra
  rw [hmain] at hcontra
  simp only [List.cons.injEq, and_true] at hcontra
  exact hd hcontra.symm

/-- Witness for C1: a module operating at 19200 (it responds only
there) with requested target 9600: the fallback probing discovers
19200, yet the printed code is 3 (the code of 9600), not 4 (the code
of 19200). -/
theorem C1_baud_set_code_uses_target_witness :
    negotiation_ok ⟨fun r => r == 19200, []⟩ 9600 = true ∧
    (enter_xbee_cmd_mode ⟨fun r => r == 19200, []⟩ 9600).2.1 = 19200 ∧
    secondary_rate_codes (set_xbee_baud_rate ⟨fun r => r == 19200, []⟩ 9600) =
      [xbee_rate_code 9600] ∧
    xbee_rate_code 9600 = 3 ∧ xbee_rate_code 19200 = 4 ∧
    secondary_rate_codes (set_xbee_baud_rate ⟨fun r => r == 19200, []⟩ 9600) ≠
      [xbee_rate_code 19200] :=
  ⟨by decide, by decide,
   (C1_baud_set_code_uses_target ⟨fun r => r == 19200, []⟩ 9600 (by decide)).1,
   rfl, rfl,
   (C1_baud_set_code_uses_target ⟨fun r => r == 19200, []⟩ 9600 (by decide)).2
     19200 (by decide)⟩

/-- C2: when the module responds neither at the requested target speed
nor at any of the five fallback candidates, negotiation returns -1,
the emitted trace is exactly the probing traffic (so it contains none
of the three configure-sequence commands) and nothing at all is done
on the primary endpoint — in particular no success confirmation is
printed. -/
theorem C2_exhaustion_no_config (m : XbeeModule) (speed : Nat)
    (h1 : m.respondsAt speed = false)
    (h2 : ∀ r ∈ xbee_rates, m.respondsAt r = false) :
    (enter_xbee_cmd_mode m speed).1 = -1 ∧
    set_xbee_baud_rate m speed =
      initial_probe speed ++ xbee_rates.flatMap probe_block ∧
    (set_xbee_baud_rate m speed).filter is_configure_write = [] ∧
    (set_xbee_baud_rate m speed).filter on_primary = [] := by
  have hany : xbee_rates.any m.respondsAt = false := by
    rw [Bool.eq_false_iff]
    intro hcon
    rw [List.any_eq_true] at hcon
    rcases hcon with ⟨r, hr, hresp⟩
    rw [h2 r hr] at hresp
    exact Bool.false_ne_true hresp
  have hok : negotiation_ok m speed = false := by
    unfold negotiation_ok
    rw [h1, hany]
    rfl
  have henter : enter_xbee_cmd_mode m speed =
      (-1, speed, initial_probe speed ++ xbee_rates.flatMap probe_block) := by
    unfold enter_xbee_cmd_mode
    rw [if_neg (by simp [h1]), try_rates_none m xbee_rates h2]
  have hset : set_xbee_baud_rate m speed =
      initial_probe speed ++ xbee_rates.flatMap probe_block := by
    rw [set_xbee_trace_fail m speed hok, henter]
  refine ⟨by rw [henter], hset, ?_, ?_⟩
  · rw [hset]
    simp [xbee_rates, initial_probe, probe_block, is_configure_write,
      List.filter_append]
  · rw [hset]
    simp [xbee_rates, initial_probe, probe_block, on_primary, on_ep,
      List.filter_append]

/-- Witness for C2: a module that never responds, probed with target
9600: negotiation fails and neither configure-sequence commands nor
primary-endpoint traffic occur. -/
theorem C2_exhaustion_no_config_witness :
    (enter_xbee_cmd_mode ⟨fun _ => false, []⟩ 9600).1 = -1 ∧
    (set_xbee_baud_rate ⟨fun _ => false, []⟩ 9600).filter
      is_configure_write = [] ∧
    (set_xbee_baud_rate ⟨fun _ => false, []⟩ 9600).filter on_primary = [] :=
  ⟨(C2_exhaustion_no_config ⟨fun _ => false, []⟩ 9600 rfl (by decide)).1,
   (C2_exhaustion_no_config ⟨fun _ => false, []⟩ 9600 rfl (by decide)).2.2.1,
   (C2_exhaustion_no_config ⟨fun _ => false, []⟩ 9600 rfl (by decide)).2.2.2⟩

/-- C3: when the initial probe at the target speed gets no response,
the negotiator probes the fallback candidates in exactly the order
9600, 57600, 115200, 19200, 38400, emitting for each tried candidate
one probe block (close, reopen at the candidate rate, write the
escape sequence, settle delay, availability check), stopping at the
first responding candidate, which becomes the discovered current
operating speed; if none responds it returns -1 after probing all
five. -/
theorem C3_fallback_order_and_stop (m : XbeeModule) (speed : Nat)
    (h : m.respondsAt speed = false) :
    (∀ r : Nat, xbee_rates.find? m.respondsAt = some r →
      enter_xbee_cmd_mode m speed =
        (0, r, initial_probe speed ++
          ((xbee_rates.takeWhile (fun q => !m.respondsAt q)).flatMap
              probe_block ++ probe_block r) ++ drain_ack m.ack)) ∧
    (xbee_rates.find? m.respondsAt = none →
      enter_xbee_cmd_mode m speed =
        (-1, speed, initial_probe speed ++ xbee_rates.flatMap probe_block)) := by
  constructor
  · intro r hr
    have hspec := try_rates_spec m xbee_rates
    rw [hr] at hspec
    unfold enter_xbee_cmd_mode
    rw [if_neg (by simp [h]), hspec]
    rfl
  · intro hnone
    have h2 : ∀ r ∈ xbee_rates, m.respondsAt r = false := by
      intro r hrmem
      have := List.find?_eq_none.mp hnone r hrmem
      rwa [Bool.not_eq_true] at this
    unfold enter_xbee_cmd_mode
    rw [if_neg (by simp [h]), try_rates_none m xbee_rates h2]

/-- Witness for C3: a module responding only at 115200 (the third
candidate) with target 2400: the first two candidates 9600 and 57600
are probed and fail, 115200 responds and becomes the discovered
speed. -/
theorem C3_fallback_order_and_stop_witness :
    enter_xbee_cmd_mode ⟨fun r => r == 115200, []⟩ 2400 =
      (0, 115200, initial_probe 2400 ++
        (([9600, 57600] : List Nat).flatMap probe_block ++
          probe_block 115200) ++ drain_ack []) := by
  have h := (C3_fallback_order_and_stop ⟨fun r => r == 115200, []⟩ 2400
    rfl).1 115200 (by decide)
  rw [h]
  decide

/-- C4 evidence: the mode-only constructor silently falls back to
hardware-only. Requesting software-only or both modes with no pin
parameters yields a hardware-mode facade with no SoftwareSerial
object, and the constructor performs no observable action at all — in
particular it prints no diagnostic, although its own
doc comment announces an error message and a halt, and the error text
`no_software_params_err_msg` exists unused in the file. -/
theorem C4_mode_only_ctor_silent_fallback :
    (ctor_mode_only serialMode.SERIAL_MODE_SOFTWARE).1.mode =
      serialMode.SERIAL_MODE_HARDWARE ∧
    (ctor_mode_only serialMode.SERIAL_MODE_SOFTWARE).1.soft_serial = false ∧
    (ctor_mode_only serialMode.SERIAL_MODE_SOFTWARE).2 = [] ∧
    (ctor_mode_only serialMode.SERIAL_MODE_HARDWARE_AND_SOFTWARE).1.mode =
      serialMode.SERIAL_MODE_HARDWARE ∧
    (ctor_mode_only serialMode.SERIAL_MODE_HARDWARE_AND_SOFTWARE).2 = [] := by
  decide

/-- Whether an event is any print (string or number, with or without
newline); the bluetooth escape sequence and rate commands are prints,
so a trace with no prints has no command-mode traffic. -/
def is_print : Event → Bool
  | Event.printS _ _ => true
  | Event.printlnS _ _ => true
  | Event.printN _ _ => true
  | Event.printlnN _ _ => true
  | _ => false

/-- The endpoints `ArdusatSerial::write` forwards to, in the order the
code writes them: the software endpoint first (software and both
modes), hardware Serial second (hardware and both modes). -/
def write_order : serialMode → List Ep
  | serialMode.SERIAL_MODE_HARDWARE => [Ep.primary]
  | serialMode.SERIAL_MODE_SOFTWARE => [Ep.secondary]
  | serialMode.SERIAL_MODE_HARDWARE_AND_SOFTWARE => [Ep.secondary, Ep.primary]

/-- Bitwise AND with an initial 1 keeps 1 exactly on a 1 operand, for
operands bounded by 1 (a single-byte write reports 0 or 1 bytes
written). -/
theorem land_single_iff (a : Nat) (ha : a ≤ 1) :
    Nat.land 1 a = 1 ↔ a = 1 := by
  interval_cases a <;> decide

/-- Folding bitwise AND over two write results bounded by 1 yields 1
exactly when both are 1. -/
theorem land_pair_iff (a b : Nat) (ha : a ≤ 1) (hb : b ≤ 1) :
    Nat.land (Nat.land 1 a) b = 1 ↔ a = 1 ∧ b = 1 := by
  interval_cases a <;> interval_cases b <;> decide

/-- C5: `write(b)` forwards the byte to exactly the endpoints the mode
activates (software endpoint then hardware Serial), and it returns 1
exactly when every one of those endpoints reported the byte written —
the logical AND of the per-endpoint results. The facade state is
assumed well-formed: the software endpoint exists whenever the mode
activates it (which both constructors guarantee). -/
theorem C5_write_and_semantics (f : ArdusatSerial) (wr : Ep → Nat) (b : Nat)
    (hinv : f.mode = serialMode.SERIAL_MODE_SOFTWARE ∨
        f.mode = serialMode.SERIAL_MODE_HARDWARE_AND_SOFTWARE →
        f.soft_serial = true)
    (hwr : ∀ e, wr e ≤ 1) :
    (fwrite f wr b).2 = (write_order f.mode).map (fun e => Event.writeB e b) ∧
    ((fwrite f wr b).1 = 1 ↔ ∀ e ∈ write_order f.mode, wr e = 1) := by
  rcases f with ⟨mode, soft⟩
  cases mode with
  | SERIAL_MODE_HARDWARE =>
    constructor
    · simp [fwrite, write_order]
    · simp only [fwrite, write_order]
      simp only [List.mem_singleton, forall_eq]
      simp
      exact land_single_iff (wr Ep.primary) (hwr Ep.primary)
  | SERIAL_MODE_SOFTWARE =>
    have hs : soft = true := hinv (Or.inl rfl)
    subst hs
    constructor
    · simp [fwrite, write_order]
    · simp only [fwrite, write_order]
      simp only [List.mem_singleton, forall_eq]
      simp
      exact land_single_iff (wr Ep.secondary) (hwr Ep.secondary)
  | SERIAL_MODE_HARDWARE_AND_SOFTWARE =>
    have hs : soft = true := hinv (Or.inr rfl)
    subst hs
    constructor
    · simp [fwrite, write_order]
    · simp only [fwrite, write_order]
      simp
      exact land_pair_iff (wr Ep.secondary) (wr Ep.primary)
        (hwr Ep.secondary) (hwr Ep.primary)

/-- Witness for C5: in both-endpoints mode with a software endpoint
that rejects the byte and a hardware endpoint that accepts it, both
endpoints are written but the aggregate result is not 1. -/
theorem C5_write_and_semantics_witness :
    (fwrite ⟨serialMode.SERIAL_MODE_HARDWARE_AND_SOFTWARE, true⟩
      (fun e => match e with | Ep.secondary => 0 | Ep.primary => 1) 65).2 =
      [Event.writeB Ep.secondary 65, Event.writeB Ep.primary 65] ∧
    (fwrite ⟨serialMode.SERIAL_MODE_HARDWARE_AND_SOFTWARE, true⟩
      (fun e => match e with | Ep.secondary => 0 | Ep.primary => 1) 65).1 ≠ 1 := by
  have h := C5_write_and_semantics
    ⟨serialMode.SERIAL_MODE_HARDWARE_AND_SOFTWARE, true⟩
    (fun e => match e with | Ep.secondary => 0 | Ep.primary => 1) 65
    (fun _ => rfl) (by intro e; cases e <;> decide)
  refine ⟨h.1, ?_⟩
  intro hcon
  have hsec := h.2.mp hcon Ep.secondary (by decide)
  exact absurd hsec (by decide)

/-- Membership in the bluetooth whitelist yields a command string from
the switch. -/
theorem bt_baud_cmd_mem (baud : Nat) (h : baud ∈ bt_whitelist) :
    ∃ c, bt_baud_cmd baud = some c := by
  fin_cases h <;> exact ⟨_, rfl⟩

/-- A rate outside the bluetooth whitelist falls into the default case
of the switch. -/
theorem bt_baud_cmd_none (baud : Nat) (h : baud ∉ bt_whitelist) :
    bt_baud_cmd baud = none := by
  unfold bt_baud_cmd
  split
  all_goals first
    | rfl
    | (exfalso; apply h; simp_all [bt_whitelist])

/-- C6: on a rate outside the whitelist, `beginBluetooth` performs
exactly the error report: it opens hardware Serial at 9600, prints the
offending value and then the supported-rate list there, writes no
escape sequence and no rate command, and never touches the secondary
endpoint. -/
theorem C6_invalid_baud_reports_on_primary (f : ArdusatSerial) (baud : Nat)
    (h : baud ∉ bt_whitelist) :
    beginBluetooth f baud =
      [Event.beginE Ep.primary 9600, Event.printN Ep.primary baud,
       Event.printlnS Ep.primary " isn't a supported bluetooth baud rate.",
       Event.printlnS Ep.primary "Supported baud rates are:",
       Event.printlnS Ep.primary "1200 2400 4800 9600 19200 38400 57600"] ∧
    (beginBluetooth f baud).filter
      (fun e => on_ep e == some Ep.secondary) = [] := by
  have hcmd : bt_baud_cmd baud = none := bt_baud_cmd_none baud h
  have htr : beginBluetooth f baud =
      [Event.beginE Ep.primary 9600, Event.printN Ep.primary baud,
       Event.printlnS Ep.primary " isn't a supported bluetooth baud rate.",
       Event.printlnS Ep.primary "Supported baud rates are:",
       Event.printlnS Ep.primary "1200 2400 4800 9600 19200 38400 57600"] := by
    unfold beginBluetooth
    rw [hcmd]
  refine ⟨htr, ?_⟩
  rw [htr]
  simp [on_ep]

/-- Witness for C6: `beginBluetooth(12345)` in both-endpoints mode
emits only the five-primary-event error report. -/
theorem C6_invalid_baud_reports_on_primary_witness :
    beginBluetooth ⟨serialMode.SERIAL_MODE_HARDWARE_AND_SOFTWARE, true⟩ 12345 =
      [Event.beginE Ep.primary 9600, Event.printN Ep.primary 12345,
       Event.printlnS Ep.primary " isn't a supported bluetooth baud rate.",
       Event.printlnS Ep.primary "Supported baud rates are:",
       Event.printlnS Ep.primary "1200 2400 4800 9600 19200 38400 57600"] ∧
    (beginBluetooth ⟨serialMode.SERIAL_MODE_HARDWARE_AND_SOFTWARE, true⟩
      12345).filter (fun e => on_ep e == some Ep.secondary) = [] :=
  C6_invalid_baud_reports_on_primary
    ⟨serialMode.SERIAL_MODE_HARDWARE_AND_SOFTWARE, true⟩ 12345 (by decide)

/-- C7: `beginBluetooth(9600)` skips the command-mode exchange in
every mode: its trace contains no print of any kind (so no escape
sequence and no rate command), and it only reopens the endpoints the
mode activates, each at 9600. -/
theorem C7_bt_9600_skips_command_mode (f : ArdusatSerial) :
    (beginBluetooth f 9600).filter is_print = [] ∧
    beginBluetooth f 9600 =
      (match f.mode with
       | serialMode.SERIAL_MODE_HARDWARE => [Event.beginE Ep.primary 9600]
       | serialMode.SERIAL_MODE_SOFTWARE =>
           [Event.endE Ep.secondary, Event.beginE Ep.secondary 9600]
       | serialMode.SERIAL_MODE_HARDWARE_AND_SOFTWARE =>
           [Event.endE Ep.secondary, Event.beginE Ep.secondary 9600,
            Event.beginE Ep.primary 9600]) := by
  rcases f with ⟨mode, soft⟩
  cases mode <;> exact ⟨rfl, rfl⟩

/-- The negotiator trace never creates or deletes the SoftwareSerial
object. -/
theorem lifecycle_filter_enter (m : XbeeModule) (speed : Nat) :
    ((enter_xbee_cmd_mode m speed).2.2).filter is_lifecycle = [] := by
  have key : ∀ tr1 tr2 : List Event, tr1.filter is_lifecycle = [] →
      tr2.filter is_lifecycle = [] →
      (tr1 ++ tr2).filter is_lifecycle = [] := by
    intro tr1 tr2 h1 h2
    rw [List.filter_append, h1, h2]
    rfl
  have hini : (initial_probe speed).filter is_lifecycle = [] := rfl
  have hblk : ∀ r, (probe_block r).filter is_lifecycle = [] := fun _ => rfl
  have htr : ∀ l, ((try_rates m l).2).filter is_lifecycle = [] := by
    intro l
    induction l with
    | nil => rfl
    | cons r rs ih =>
      show (if m.respondsAt r then (some r, probe_block r)
            else ((try_rates m rs).1,
              probe_block r ++ (try_rates m rs).2)).2.filter is_lifecycle = []
      by_cases h : m.respondsAt r
      · rw [if_pos h]
        exact hblk r
      · rw [if_neg h]
        exact key _ _ (hblk r) ih
  have hdr : (drain_ack m.ack).filter is_lifecycle = [] := by
    unfold drain_ack
    by_cases h : m.ack.headD (-1) = -1
    · rw [if_pos h]
      rfl
    · rw [if_neg h]
      rfl
  unfold enter_xbee_cmd_mode
  by_cases h : m.respondsAt speed
  · rw [if_pos h]
    exact key _ _ hini hdr
  · rw [if_neg h]
    rcases hfind : try_rates m xbee_rates with ⟨found, tr⟩
    have htr2 : tr.filter is_lifecycle = [] := by
      have := htr xbee_rates
      rw [hfind] at this
      exact this
    cases found with
    | some r =>
      show (initial_probe speed ++ tr ++ drain_ack m.ack).filter
        is_lifecycle = []
      exact key _ _ (key _ _ hini htr2) hdr
    | none =>
      show (initial_probe speed ++ tr).filter is_lifecycle = []
      exact key _ _ hini htr2

/-- Likewise `set_xbee_baud_rate` never creates or deletes the SoftwareSerial
object either. -/
theorem lifecycle_filter_set (m : XbeeModule) (speed : Nat) :
    (set_xbee_baud_rate m speed).filter is_lifecycle = [] := by
  by_cases h : negotiation_ok m speed
  · rw [set_xbee_trace_ok m speed h, List.filter_append,
      lifecycle_filter_enter]
    rfl
  · rw [set_xbee_trace_fail m speed (Bool.eq_false_iff.mpr h),
      lifecycle_filter_enter]

/-- C8: the SoftwareSerial object exists after construction exactly
when the mode is software-only or both (for the mode-only constructor
the effective mode is always hardware and no object exists); the full
constructor creates it exactly once in those modes and never
otherwise; the destructor deletes it exactly once when it exists and
never otherwise; and no other facade operation ever creates or
deletes it. -/
theorem C8_secondary_lifecycle (mode : serialMode) (rx tx : Nat)
    (inverse : Bool) (f : ArdusatSerial) (m : XbeeModule) (baud b : Nat)
    (sx : Bool) (o1 o2 o3 : Ep → Int) (wr : Ep → Nat) :
    ((ctor_full mode rx tx inverse).1.soft_serial =
      (match mode with
       | serialMode.SERIAL_MODE_HARDWARE => false
       | serialMode.SERIAL_MODE_SOFTWARE => true
       | serialMode.SERIAL_MODE_HARDWARE_AND_SOFTWARE => true)) ∧
    (ctor_full mode rx tx inverse).1.mode = mode ∧
    ((ctor_full mode rx tx inverse).2.filter is_lifecycle =
      (match mode with
       | serialMode.SERIAL_MODE_HARDWARE => []
       | serialMode.SERIAL_MODE_SOFTWARE => [Event.newSoftSerial]
       | serialMode.SERIAL_MODE_HARDWARE_AND_SOFTWARE =>
           [Event.newSoftSerial])) ∧
    (ctor_mode_only mode).1.soft_serial = false ∧
    (ctor_mode_only mode).1.mode = serialMode.SERIAL_MODE_HARDWARE ∧
    (ctor_mode_only mode).2.filter is_lifecycle = [] ∧
    ((dtor f).filter is_lifecycle =
      (if f.soft_serial then [Event.deleteSoftSerial] else [])) ∧
    (fbegin f m baud sx).filter is_lifecycle = [] ∧
    (beginBluetooth f baud).filter is_lifecycle = [] ∧
    (fend f).filter is_lifecycle = [] ∧
    (fflush f).filter is_lifecycle = [] ∧
    ((fpeek f o1).2).filter is_lifecycle = [] ∧
    ((fread f o2).2).filter is_lifecycle = [] ∧
    ((favailable f o3).2).filter is_lifecycle = [] ∧
    ((fwrite f wr b).2).filter is_lifecycle = [] := by
  rcases f with ⟨fm, fs⟩
  refine ⟨?_, ?_, ?_, rfl, rfl, rfl, ?_, ?_, ?_, ?_, ?_, ?_, ?_, ?_, ?_⟩
  · cases mode <;> rfl
  · cases mode <;> rfl
  · cases mode <;> rfl
  · cases fs <;> rfl
  · cases fm <;> cases sx <;>
      simp [fbegin, List.filter_append, lifecycle_filter_set, is_lifecycle]
  · rcases hc : bt_baud_cmd baud with _ | cmd <;>
      cases fm <;> by_cases h9 : baud = 9600 <;>
      simp [beginBluetooth, hc, h9, List.filter_append, is_lifecycle] <;>
      decide
  · cases fm <;> cases fs <;> rfl
  · cases fm <;> cases fs <;> rfl
  · cases fm <;> rfl
  · cases fm <;> rfl
  · cases fm <;> rfl
  · cases fm <;> cases fs <;> rfl

/-- The endpoint `return_serial_function` routes to, per mode: the
software endpoint for software-only and both modes, hardware Serial
for hardware-only mode. -/
def route : serialMode → Ep
  | serialMode.SERIAL_MODE_HARDWARE => Ep.primary
  | serialMode.SERIAL_MODE_SOFTWARE => Ep.secondary
  | serialMode.SERIAL_MODE_HARDWARE_AND_SOFTWARE => Ep.secondary

/-- C9: each of `peek()`, `read()` and `available()` consults exactly
one endpoint — the secondary endpoint in software-only and both
modes, the primary endpoint in hardware-only mode — and returns that
value of that single endpoint; in particular, in both mode the primary
endpoint is never consulted by these operations. -/
theorem C9_status_ops_single_endpoint (f : ArdusatSerial)
    (o1 o2 o3 : Ep → Int) :
    (fpeek f o1).2 = [Event.peekE (route f.mode)] ∧
    (fpeek f o1).1 = o1 (route f.mode) ∧
    (fread f o2).2 = [Event.readE (route f.mode)] ∧
    (fread f o2).1 = o2 (route f.mode) ∧
    (favailable f o3).2 = [Event.availE (route f.mode)] ∧
    (favailable f o3).1 = o3 (route f.mode) ∧
    route serialMode.SERIAL_MODE_HARDWARE_AND_SOFTWARE = Ep.secondary ∧
    route serialMode.SERIAL_MODE_SOFTWARE = Ep.secondary ∧
    route serialMode.SERIAL_MODE_HARDWARE = Ep.primary := by
  rcases f with ⟨fm, fs⟩
  cases fm <;>
    exact ⟨rfl, rfl, rfl, rfl, rfl, rfl, rfl, rfl, rfl⟩

/-- C10: in both-endpoints mode with a whitelisted target other than
9600, the whole command-mode exchange (reopen at 9600, escape
sequence "$$$", 100 ms delay, rate command) happens on the secondary
endpoint only, which is then reopened at the target; the primary
endpoint sees exactly one action, being opened directly at the
target baud. -/
theorem C10_both_mode_cmd_traffic_secondary_only (f : ArdusatSerial)
    (baud : Nat)
    (hmode : f.mode = serialMode.SERIAL_MODE_HARDWARE_AND_SOFTWARE)
    (hmem : baud ∈ bt_whitelist) (hne : baud ≠ 9600) :
    ∃ cmd, bt_baud_cmd baud = some cmd ∧
      beginBluetooth f baud =
        [Event.endE Ep.secondary, Event.beginE Ep.secondary 9600,
         Event.printS Ep.secondary "$$$", Event.delayE 100,
         Event.printlnS Ep.secondary cmd,
         Event.endE Ep.secondary, Event.beginE Ep.secondary baud,
         Event.beginE Ep.primary baud] ∧
      (beginBluetooth f baud).filter on_primary =
        [Event.beginE Ep.primary baud] := by
  rcases bt_baud_cmd_mem baud hmem with ⟨cmd, hcmd⟩
  have htr : beginBluetooth f baud =
      [Event.endE Ep.secondary, Event.beginE Ep.secondary 9600,
       Event.printS Ep.secondary "$$$", Event.delayE 100,
       Event.printlnS Ep.secondary cmd,
       Event.endE Ep.secondary, Event.beginE Ep.secondary baud,
       Event.beginE Ep.primary baud] := by
    unfold beginBluetooth
    rw [hcmd, hmode]
    simp [hne]
  refine ⟨cmd, hcmd, htr, ?_⟩
  rw [htr]
  simp [on_primary, on_ep]

/-- Witness for C10: both mode, target 57600: command-mode traffic on
the secondary endpoint only, the primary opened once directly at
57600. -/
theorem C10_both_mode_cmd_traffic_secondary_only_witness :
    beginBluetooth ⟨serialMode.SERIAL_MODE_HARDWARE_AND_SOFTWARE, true⟩
        57600 =
      [Event.endE Ep.secondary, Event.beginE Ep.secondary 9600,
       Event.printS Ep.secondary "$$$", Event.delayE 100,
       Event.printlnS Ep.secondary "U,576K,N",
       Event.endE Ep.secondary, Event.beginE Ep.secondary 57600,
       Event.beginE Ep.primary 57600] ∧
    (beginBluetooth ⟨serialMode.SERIAL_MODE_HARDWARE_AND_SOFTWARE, true⟩
        57600).filter on_primary = [Event.beginE Ep.primary 57600] := by
  obtain ⟨cmd, hcmd, htr, hfil⟩ :=
    C10_both_mode_cmd_traffic_secondary_only
      ⟨serialMode.SERIAL_MODE_HARDWARE_AND_SOFTWARE, true⟩ 57600
      rfl (by decide) (by decide)
  have hc : cmd = "U,576K,N" :=
    Option.some.inj
      (hcmd.symm.trans (show bt_baud_cmd 57600 = some "U,576K,N" from rfl))
  rw [hc] at htr
  exact ⟨htr, hfil⟩
